import Mathlib

/-!
Shallow embedding of the project-management backend in src/main/main.py:
the relational data model (users, projects, project_users, documents),
the JWT token service, identity resolution, and the project / membership
endpoints, together with theorems settling the specification claims.

Conventions of the embedding:
* machine rows are structures over Nat / String / Bool; nullable foreign
  key columns are Option Nat;
* the database is a record of row lists plus the serial id counters of
  the four tables; queries are list scans in insertion order, matching
  the behaviour of the underlying store for these single-column filters;
* an HTTP failure raised by the handler is `Except.error` carrying the
  status and detail of the raised HTTPException; an exception that
  escapes the handler unhandled (database IntegrityError, ORM
  UnmappedInstanceError) is `Except.error` with status 500, the status
  the framework assigns to unhandled exceptions;
* the two read endpoints that build an HTTPException value and `return`
  it (rather than raise it) use the dedicated `ApiResult` type, because
  the framework serves a returned value as a 200 response.
-/

/-- Client-visible HTTP failure: the status code and detail message of an
HTTPException raised (or, for status 500, an exception escaping) a handler. -/
structure HErr where
  status : Nat
  detail : String
  deriving Repr, DecidableEq

/-- Row of the users table (class User in src/main/main.py): unique email,
stored password hash, free-form role, active flag defaulting to true. -/
structure UserRow where
  id : Nat
  name : String
  email : String
  password : String
  role : String
  active : Bool
  deriving Repr, DecidableEq

/-- Row of the projects table (class Project): id, name, optional logo URL
and optional details text. The documents relationship lives in the
documents table. -/
structure ProjectRow where
  id : Nat
  name : String
  logo : Option String
  details : Option String
  deriving Repr, DecidableEq

/-- Row of the project_users membership table (class ProjectUser): nullable
foreign keys to users and projects plus the ownership flag. -/
structure ProjectUserRow where
  id : Nat
  user_id : Option Nat
  project_id : Option Nat
  is_owner : Bool
  deriving Repr, DecidableEq

/-- Row of the documents table (class Document): nullable foreign key to
projects and the stored URL. -/
structure DocumentRow where
  id : Nat
  project_id : Option Nat
  url : String
  deriving Repr, DecidableEq

/-- The relational state: the four tables in insertion order together with
the next value of each serial primary key. -/
structure DB where
  users : List UserRow
  projects : List ProjectRow
  project_users : List ProjectUserRow
  documents : List DocumentRow
  nextUserId : Nat
  nextProjectId : Nat
  nextPuId : Nat
  nextDocId : Nat
  deriving Repr, DecidableEq

/-- The server JWT secret (environment variable JWT_SECRET), modelled as an
abstract constant string; a signature verifies exactly when the token was
signed with the same secret. -/
def SECRET_KEY : String := "JWT_SECRET"

/-- Decoded JWT claim set: optional sub claim and absolute exp instant in
seconds. -/
structure Payload where
  sub : Option String
  exp : Nat
  deriving Repr, DecidableEq

/-- A signed token: the claims plus the secret it was signed with (the
symmetric MAC verifies iff the verifier holds the same secret). -/
structure Token where
  sub : Option String
  exp : Nat
  sig : String
  deriving Repr, DecidableEq

/-- Failure modes of jwt.decode: bad signature or exp claim in the past.
Both are subclasses of PyJWTError in the source. -/
inductive JwtError where
  | invalidSignature
  | expired
  deriving Repr, DecidableEq

/-- jwt.encode: sign the claim set with the given secret. -/
def jwt_encode (p : Payload) (secret : String) : Token :=
  ⟨p.sub, p.exp, secret⟩

/-- jwt.decode at instant now: fails when the signature does not verify
under the given secret, or when the exp claim is strictly in the past
(PyJWT raises ExpiredSignatureError when exp < now, with zero leeway);
otherwise returns the claim set. -/
def jwt_decode (t : Token) (secret : String) (now : Nat) : Except JwtError Payload :=
  if t.sig ≠ secret then .error .invalidSignature
  else if t.exp < now then .error .expired
  else .ok ⟨t.sub, t.exp⟩

/-- create_access_token (src/main/main.py lines 45-53): the sub claim of
the data argument, an exp of now plus the caller-supplied delta (in
seconds), defaulting to 15 minutes, signed with the server secret. -/
def create_access_token (sub : Option String) (now : Nat) (expires_delta : Option Nat) : Token :=
  jwt_encode ⟨sub, now + expires_delta.getD (15 * 60)⟩ SECRET_KEY

/-- The 401 failure raised whenever a presented token cannot be validated
or resolved (src/main/main.py lines 190-194). -/
def credentials_exception : HErr :=
  ⟨401, "Could not validate credentials"⟩

/-- decode_access_token (lines 201-209): decode under the server secret,
require a sub claim, and turn any decode failure into the 401 error. -/
def decode_access_token (t : Token) (now : Nat) : Except HErr Payload :=
  match jwt_decode t SECRET_KEY now with
  | .error _ => .error credentials_exception
  | .ok p => if p.sub.isNone then .error credentials_exception else .ok p

/-- db.query(User).filter(User.email == email).first(). -/
def find_by_email (db : DB) (email : String) : Option UserRow :=
  db.users.find? (fun u => u.email == email)

/-- get_current_user (lines 212-233): decode the token (any failure,
including a missing sub claim, becomes the 401 error), look the subject
up by email (absent user is the 401 error), and reject an inactive user
with the 400 inactive-user error. -/
def get_current_user (db : DB) (t : Token) (now : Nat) : Except HErr UserRow :=
  match jwt_decode t SECRET_KEY now with
  | .error _ => .error credentials_exception
  | .ok p =>
    match p.sub with
    | none => .error credentials_exception
    | some email =>
      match find_by_email db email with
      | none => .error credentials_exception
      | some u =>
        if !u.active then .error ⟨400, "Inactive user"⟩ else .ok u

/-- get_current_active_user (lines 311-314): repeat the active check on
the resolved user. -/
def get_current_active_user (db : DB) (t : Token) (now : Nat) : Except HErr UserRow :=
  match get_current_user db t now with
  | .error e => .error e
  | .ok u => if !u.active then .error ⟨400, "Inactive user"⟩ else .ok u

/-- Request body of POST /auth (class UserCreate): name, email, password,
role defaulting to the string user. -/
structure UserCreate where
  name : String
  email : String
  password : String
  role : String
  deriving Repr, DecidableEq

/-- Modelled external primitive (werkzeug generate_password_hash, an
out-of-scope collaborator per the spec): an injective one-way transform,
represented as prefixing a scheme tag so that hash and plaintext are
provably distinct. -/
def generate_password_hash (p : String) : String :=
  "pbkdf2-sha256$" ++ p

/-- create_user (lines 160-171): hash the password, insert the row with
the active column default true, and commit. The handler performs no
duplicate check; the unique constraint on users.email makes the commit
raise an IntegrityError, which escapes unhandled as a 500. On success the
new row is returned. -/
def create_user (db : DB) (u : UserCreate) : Except HErr (DB × UserRow) :=
  let hashed := generate_password_hash u.password
  let row : UserRow := ⟨db.nextUserId, u.name, u.email, hashed, u.role, true⟩
  if db.users.any (fun v => v.email == u.email) then
    .error ⟨500, "IntegrityError"⟩
  else
    .ok ({ db with users := db.users ++ [row], nextUserId := db.nextUserId + 1 }, row)

/-- The database state after POST /auth: the committed state on success,
the rolled-back (unchanged) state when the commit fails. -/
def create_user_db (db : DB) (u : UserCreate) : DB :=
  match create_user db u with
  | .ok (d, _) => d
  | .error _ => db

/-- Serialization of the created user through response_model=UserCreate:
the response body holds exactly the four declared fields of UserCreate,
the password field carrying the stored column value. -/
def userCreateResponse (row : UserRow) : List (String × String) :=
  [("name", row.name), ("email", row.email), ("password", row.password), ("role", row.role)]

/-- The body of the 200 response of POST /auth, or the failure. -/
def create_user_response (db : DB) (u : UserCreate) : Except HErr (List (String × String)) :=
  match create_user db u with
  | .ok (_, row) => .ok (userCreateResponse row)
  | .error e => .error e

/-- Request body of the project endpoints (class ProjectModel): name,
optional logo and details, and a list of document URLs (HttpUrl values). -/
structure ProjectModel where
  name : String
  logo : Option String
  details : Option String
  documents : List String
  deriving Repr, DecidableEq

/-- An element of the ORM documents relationship collection of a project:
either a mapped Document row, or a raw (non-mapped) value such as the
pydantic HttpUrl objects that create_project and update_project_info
append directly from ProjectModel.documents. -/
inductive DocEntry where
  | row (d : DocumentRow)
  | raw (url : String)
  deriving Repr, DecidableEq

/-- Session flush of the documents relationship collection: every entry
must be a mapped Document instance; a raw value (a pydantic HttpUrl) makes
the unit of work raise UnmappedInstanceError, which escapes the handler
unhandled as a 500. -/
def flushDocEntries : List DocEntry → Except HErr (List DocumentRow)
  | [] => .ok []
  | .row d :: rest => (flushDocEntries rest).map (fun l => d :: l)
  | .raw _ :: _ => .error ⟨500, "UnmappedInstanceError"⟩

/-- create_project (lines 236-244): Project(**project.dict()) places the
raw URL values of project.documents into the documents relationship, so
the commit flushes them (failing on any non-empty list); on success a
fresh serial id is assigned and only the project row is inserted — no
membership row is created (the endpoint has no authenticated caller at
all). Returns the new project id. -/
def create_project (db : DB) (p : ProjectModel) : Except HErr (DB × Nat) :=
  match flushDocEntries (p.documents.map DocEntry.raw) with
  | .error e => .error e
  | .ok _ =>
    let pid := db.nextProjectId
    .ok ({ db with
            projects := db.projects ++ [⟨pid, p.name, p.logo, p.details⟩],
            nextProjectId := pid + 1 }, pid)

/-- Outcome of a handler that may build an HTTPException without raising
it: `ok` and `returnedException` are both served by the framework as a
200 response (only a raised exception produces an error status). -/
inductive ApiResult (α : Type) where
  | ok (body : α)
  | raised (e : HErr)
  | returnedException (e : HErr)
  deriving Repr, DecidableEq

/-- The HTTP status the framework sends for the handler outcome: a raised
HTTPException keeps its status; any returned value, a constructed
HTTPException object included, is serialized as a 200 response. -/
def ApiResult.httpStatus {α : Type} : ApiResult α → Nat
  | .ok _ => 200
  | .raised e => e.status
  | .returnedException _ => 200

/-- The Document rows attached to a project. -/
def docs_of (db : DB) (pid : Nat) : List DocumentRow :=
  db.documents.filter (fun d => d.project_id == some pid)

/-- Flattened body of GET /project/id/info. -/
structure ProjectInfoOut where
  project_id : Nat
  name : String
  logo : Option String
  details : Option String
  documents : List DocumentRow
  deriving Repr, DecidableEq

/-- get_project_info (lines 247-264): on a hit, the flattened fields with
the document rows; on a miss the handler CONSTRUCTS
HTTPException(404) and returns it instead of raising, so the framework
serves it as a 200 response whose body is the exception object. -/
def get_project_info (db : DB) (pid : Nat) : ApiResult ProjectInfoOut :=
  match db.projects.find? (fun q => q.id == pid) with
  | some pr => .ok ⟨pr.id, pr.name, pr.logo, pr.details, docs_of db pid⟩
  | none => .returnedException ⟨404, "Project not found"⟩

/-- get_project (lines 435-444): same shape as get_project_info — the 404
HTTPException is returned, not raised. -/
def get_project (db : DB) (pid : Nat) : ApiResult (ProjectRow × List DocumentRow) :=
  match db.projects.find? (fun q => q.id == pid) with
  | some pr => .ok (pr, docs_of db pid)
  | none => .returnedException ⟨404, "Project not found"⟩

/-- update_project_info (lines 278-308): 404 raised when the project is
absent; otherwise name, logo and details are replaced, the existing
document rows are detached (their foreign key nullified by the clearing
of the relationship, with no delete-orphan cascade), and the raw URL
values of the request are appended to the relationship, so the commit
flush fails on any non-empty list. On success the flattened updated
fields are returned. -/
def update_project_info (db : DB) (pid : Nat) (pm : ProjectModel) :
    Except HErr (DB × ProjectInfoOut) :=
  match db.projects.find? (fun q => q.id == pid) with
  | none => .error ⟨404, "Project not found"⟩
  | some _ =>
    match flushDocEntries (pm.documents.map DocEntry.raw) with
    | .error e => .error e
    | .ok newRows =>
      let db2 : DB := { db with
        projects := db.projects.map (fun q =>
          if q.id == pid then { q with name := pm.name, logo := pm.logo, details := pm.details }
          else q),
        documents := (db.documents.map (fun d =>
          if d.project_id == some pid then { d with project_id := none } else d)) ++ newRows }
      .ok (db2, ⟨pid, pm.name, pm.logo, pm.details, newRows⟩)

/-- delete_project (lines 317-333): 404 raised when the project is absent;
403 raised when the authenticated caller has no membership row on the
project (project.project_users holds the rows whose project_id is the
project); otherwise the project row is deleted and, the relationships
carrying no delete cascade, the unit of work nullifies the project
foreign key of the related membership and document rows. -/
def delete_project (db : DB) (current_user : UserRow) (pid : Nat) :
    Except HErr (DB × String) :=
  match db.projects.find? (fun q => q.id == pid) with
  | none => .error ⟨404, "Project not found"⟩
  | some _ =>
    if !(db.project_users.any (fun pu =>
          pu.project_id == some pid && pu.user_id == some current_user.id)) then
      .error ⟨403, "Not authorized"⟩
    else
      .ok ({ db with
        projects := db.projects.filter (fun q => !(q.id == pid)),
        project_users := db.project_users.map (fun pu =>
          if pu.project_id == some pid then { pu with project_id := none } else pu),
        documents := db.documents.map (fun d =>
          if d.project_id == some pid then { d with project_id := none } else d) },
        "Project deleted successfully")

/-- DELETE /projects/id as the client sees it: the authentication
dependency resolves the bearer token first and any of its failures is the
response; then delete_project runs for the resolved caller. -/
def delete_project_endpoint (db : DB) (t : Token) (now : Nat) (pid : Nat) :
    Except HErr (DB × String) :=
  match get_current_active_user db t now with
  | .error e => .error e
  | .ok u => delete_project db u pid

/-- invite_user (lines 336-381): 403 raised unless the caller holds an
is_owner membership row on the project; 404 raised when no user carries
the target email; 400 raised when the target already has a membership row
on the project; otherwise exactly one membership row with is_owner false
is inserted for the target. -/
def invite_user (db : DB) (current_user : UserRow) (pid : Nat) (user_email : String) :
    Except HErr (DB × String) :=
  match db.project_users.find? (fun pu =>
      pu.project_id == some pid && pu.user_id == some current_user.id && pu.is_owner) with
  | none => .error ⟨403, "Not authorized"⟩
  | some _ =>
    match db.users.find? (fun v => v.email == user_email) with
    | none => .error ⟨404, "User not found"⟩
    | some target =>
      match db.project_users.find? (fun pu =>
          pu.project_id == some pid && pu.user_id == some target.id) with
      | some _ => .error ⟨400, "User is already a member of the project"⟩
      | none =>
        .ok ({ db with
                project_users := db.project_users ++
                  [⟨db.nextPuId, some target.id, some pid, false⟩],
                nextPuId := db.nextPuId + 1 },
             "User invited successfully")

/-- get_project_documents (lines 420-432): 404 raised when the project is
absent (this handler raises properly); otherwise the document rows. -/
def get_project_documents (db : DB) (pid : Nat) : Except HErr (List DocumentRow) :=
  match db.projects.find? (fun q => q.id == pid) with
  | none => .error ⟨404, "Project not found"⟩
  | some _ => .ok (docs_of db pid)

/-! Helper lemmas shared by the claim theorems. -/

/-- A list filtered on the negation of a predicate has no find? hit for
that predicate. -/
theorem find?_filter_not {α : Type} (l : List α) (p : α → Bool) :
    (l.filter (fun a => !(p a))).find? p = none := by
  induction l with
  | nil => rfl
  | cons a l ih =>
    by_cases h : p a <;> simp [List.filter_cons, h, List.find?_cons, ih]

/-- The modelled one-way hash never equals its input (length argument). -/
theorem generate_password_hash_ne (p : String) : generate_password_hash p ≠ p := by
  intro h
  have hlen := congrArg String.length h
  simp [generate_password_hash, String.length_append] at hlen
  exact absurd hlen (by decide)

/-! Concrete fixtures used by witnesses and counterexamples. -/

/-- The empty database with all serial counters at 1. -/
def dbEmpty : DB := ⟨[], [], [], [], 1, 1, 1, 1⟩

/-- Fixture with an active user and an inactive user. -/
def dbTwoUsers : DB :=
  ⟨[⟨1, "A", "a@x", "h", "user", true⟩, ⟨2, "B", "b@x", "h", "user", false⟩],
   [], [], [], 3, 1, 1, 1⟩

/-- A structurally valid token for the active fixture user. -/
def tokA : Token := ⟨some "a@x", 100, SECRET_KEY⟩

/-- A structurally valid token for the inactive fixture user. -/
def tokB : Token := ⟨some "b@x", 100, SECRET_KEY⟩

/-- A token signed with the wrong secret. -/
def tokBad : Token := ⟨some "a@x", 100, "wrong-secret"⟩

/-- A valid token whose subject matches no stored user. -/
def tokGhost : Token := ⟨some "c@x", 100, SECRET_KEY⟩

/-- A valid token with no sub claim. -/
def tokNoSub : Token := ⟨none, 100, SECRET_KEY⟩

/-- C1: identity resolution validates the token first and then resolves the
subject email: a token that fails decoding, a token with no subject, and a
subject matching no stored user all yield the 401 credentials error, while
a resolved user whose active flag is false is rejected with the separate
400 inactive-account error even though the token is structurally valid;
an active resolved user is returned. -/
theorem get_current_user_resolution (db : DB) (t : Token) (now : Nat) :
    (∀ e, jwt_decode t SECRET_KEY now = .error e →
      get_current_user db t now = .error credentials_exception) ∧
    (∀ p, jwt_decode t SECRET_KEY now = .ok p → p.sub = none →
      get_current_user db t now = .error credentials_exception) ∧
    (∀ p email, jwt_decode t SECRET_KEY now = .ok p → p.sub = some email →
      find_by_email db email = none →
      get_current_user db t now = .error credentials_exception) ∧
    (∀ p email u, jwt_decode t SECRET_KEY now = .ok p → p.sub = some email →
      find_by_email db email = some u → u.active = false →
      get_current_user db t now = .error ⟨400, "Inactive user"⟩) ∧
    (∀ p email u, jwt_decode t SECRET_KEY now = .ok p → p.sub = some email →
      find_by_email db email = some u → u.active = true →
      get_current_user db t now = .ok u) := by
  refine ⟨?_, ?_, ?_, ?_, ?_⟩ <;> intros <;> simp_all [get_current_user]

/-- Witness for C1: each branch of the resolution theorem at a concrete
database and token. -/
theorem get_current_user_resolution_witness :
    get_current_user dbTwoUsers tokBad 50 = .error credentials_exception ∧
    get_current_user dbTwoUsers tokNoSub 50 = .error credentials_exception ∧
    get_current_user dbTwoUsers tokGhost 50 = .error credentials_exception ∧
    get_current_user dbTwoUsers tokB 50 = .error ⟨400, "Inactive user"⟩ ∧
    get_current_user dbTwoUsers tokA 50 = .ok ⟨1, "A", "a@x", "h", "user", true⟩ := by
  refine ⟨?_, ?_, ?_, ?_, ?_⟩
  · exact (get_current_user_resolution dbTwoUsers tokBad 50).1 .invalidSignature rfl
  · exact (get_current_user_resolution dbTwoUsers tokNoSub 50).2.1 ⟨none, 100⟩ rfl rfl
  · exact (get_current_user_resolution dbTwoUsers tokGhost 50).2.2.1 ⟨some "c@x", 100⟩ "c@x"
      rfl rfl rfl
  · exact (get_current_user_resolution dbTwoUsers tokB 50).2.2.2.1 ⟨some "b@x", 100⟩ "b@x"
      ⟨2, "B", "b@x", "h", "user", false⟩ rfl rfl rfl rfl
  · exact (get_current_user_resolution dbTwoUsers tokA 50).2.2.2.2 ⟨some "a@x", 100⟩ "a@x"
      ⟨1, "A", "a@x", "h", "user", true⟩ rfl rfl rfl rfl

/-- C2: a token issued for subject S validates immediately (at its issue
instant) to a payload whose subject is S, and validating the same token at
any instant strictly after its expiry fails with the 401 credentials
error. -/
theorem token_round_trip_and_expiry (S : String) (now t : Nat) (delta : Option Nat) :
    (decode_access_token (create_access_token (some S) now delta) now).map Payload.sub
      = .ok (some S) ∧
    ((create_access_token (some S) now delta).exp < t →
      decode_access_token (create_access_token (some S) now delta) t
        = .error credentials_exception) := by
  constructor
  · simp [decode_access_token, create_access_token, jwt_encode, jwt_decode,
      Except.map, Nat.not_lt.mpr (Nat.le_add_right now _)]
  · intro h
    simp only [create_access_token, jwt_encode] at h
    simp [decode_access_token, create_access_token, jwt_encode, jwt_decode, h]

/-- Witness for C2: a token issued at instant 100 with a 1800 second ttl
round-trips at instant 100 and is rejected at instant 2000, strictly after
its expiry instant 1900. -/
theorem token_round_trip_and_expiry_witness :
    (decode_access_token (create_access_token (some "a@x") 100 (some 1800)) 100).map Payload.sub
      = .ok (some "a@x") ∧
    decode_access_token (create_access_token (some "a@x") 100 (some 1800)) 2000
      = .error credentials_exception := by
  have h := token_round_trip_and_expiry "a@x" 100 2000 (some 1800)
  exact ⟨h.1, h.2 (by decide)⟩

/-- C3: invite performs the owner check, the target-existence check and the
already-member check in that order — no owner row for the caller is 403,
then an unknown target email is 404, then an existing membership row for
the target is 400 — and otherwise inserts exactly one membership row for
the target with is_owner false. -/
theorem invite_user_checks (db : DB) (cu : UserRow) (pid : Nat) (em : String) :
    (db.project_users.find? (fun pu =>
        pu.project_id == some pid && pu.user_id == some cu.id && pu.is_owner) = none →
      invite_user db cu pid em = .error ⟨403, "Not authorized"⟩) ∧
    (∀ orow, db.project_users.find? (fun pu =>
        pu.project_id == some pid && pu.user_id == some cu.id && pu.is_owner) = some orow →
      db.users.find? (fun v => v.email == em) = none →
      invite_user db cu pid em = .error ⟨404, "User not found"⟩) ∧
    (∀ orow target mrow, db.project_users.find? (fun pu =>
        pu.project_id == some pid && pu.user_id == some cu.id && pu.is_owner) = some orow →
      db.users.find? (fun v => v.email == em) = some target →
      db.project_users.find? (fun pu =>
        pu.project_id == some pid && pu.user_id == some target.id) = some mrow →
      invite_user db cu pid em = .error ⟨400, "User is already a member of the project"⟩) ∧
    (∀ orow target, db.project_users.find? (fun pu =>
        pu.project_id == some pid && pu.user_id == some cu.id && pu.is_owner) = some orow →
      db.users.find? (fun v => v.email == em) = some target →
      db.project_users.find? (fun pu =>
        pu.project_id == some pid && pu.user_id == some target.id) = none →
      invite_user db cu pid em = .ok ({ db with
          project_users := db.project_users ++ [⟨db.nextPuId, some target.id, some pid, false⟩],
          nextPuId := db.nextPuId + 1 },
        "User invited successfully")) := by
  refine ⟨?_, ?_, ?_, ?_⟩
  · intro h1
    simp only [invite_user, h1]
  · intro orow h1 h2
    simp only [invite_user, h1, h2]
  · intro orow target mrow h1 h2 h3
    simp only [invite_user, h1, h2, h3]
  · intro orow target h1 h2 h3
    simp only [invite_user, h1, h2, h3]

/-- Invite fixture: user 1 owns project 1, user 2 is a plain member,
user 3 is unaffiliated. -/
def dbInvite : DB :=
  ⟨[⟨1, "O", "o@x", "h", "user", true⟩, ⟨2, "M", "m@x", "h", "user", true⟩,
    ⟨3, "N", "n@x", "h", "user", true⟩],
   [⟨1, "P", none, none⟩],
   [⟨1, some 1, some 1, true⟩, ⟨2, some 2, some 1, false⟩],
   [], 4, 2, 3, 1⟩

/-- The owner row of the invite fixture. -/
def ownerRow : ProjectUserRow := ⟨1, some 1, some 1, true⟩

/-- The plain-member row of the invite fixture. -/
def memberRow : ProjectUserRow := ⟨2, some 2, some 1, false⟩

/-- The owner user of the invite fixture. -/
def ownerUser : UserRow := ⟨1, "O", "o@x", "h", "user", true⟩

/-- The plain-member user of the invite fixture. -/
def memberUser : UserRow := ⟨2, "M", "m@x", "h", "user", true⟩

/-- The unaffiliated user of the invite fixture. -/
def outsideUser : UserRow := ⟨3, "N", "n@x", "h", "user", true⟩

/-- Witness for C3: on the fixture, a non-owner member inviting fails 403,
the owner inviting an unknown email fails 404, the owner re-inviting the
existing member fails 400, and the owner inviting the unaffiliated user
inserts exactly the one new non-owner membership row. -/
theorem invite_user_checks_witness :
    invite_user dbInvite memberUser 1 "n@x" = .error ⟨403, "Not authorized"⟩ ∧
    invite_user dbInvite ownerUser 1 "zz@x" = .error ⟨404, "User not found"⟩ ∧
    invite_user dbInvite ownerUser 1 "m@x"
      = .error ⟨400, "User is already a member of the project"⟩ ∧
    invite_user dbInvite ownerUser 1 "n@x" = .ok ({ dbInvite with
        project_users := dbInvite.project_users ++ [⟨3, some 3, some 1, false⟩],
        nextPuId := 4 },
      "User invited successfully") := by
  refine ⟨?_, ?_, ?_, ?_⟩
  · exact (invite_user_checks dbInvite memberUser 1 "n@x").1 rfl
  · exact (invite_user_checks dbInvite ownerUser 1 "zz@x").2.1 ownerRow rfl rfl
  · exact (invite_user_checks dbInvite ownerUser 1 "m@x").2.2.1 ownerRow memberUser memberRow
      rfl rfl rfl
  · exact (invite_user_checks dbInvite ownerUser 1 "n@x").2.2.2 ownerRow outsideUser
      rfl rfl rfl

/-- C4: through the authenticated endpoint, delete is 401 when the bearer
token does not validate, 404 when no project with the id exists, 403 when
the resolved caller has no membership row on the project, and succeeds
otherwise; the 404, 403 and 401 statuses are pairwise distinct. -/
theorem delete_project_statuses (db : DB) (t : Token) (now pid : Nat) :
    (∀ e, jwt_decode t SECRET_KEY now = .error e →
      delete_project_endpoint db t now pid = .error credentials_exception) ∧
    (∀ u, get_current_active_user db t now = .ok u →
      db.projects.find? (fun q => q.id == pid) = none →
      delete_project_endpoint db t now pid = .error ⟨404, "Project not found"⟩) ∧
    (∀ u pr, get_current_active_user db t now = .ok u →
      db.projects.find? (fun q => q.id == pid) = some pr →
      db.project_users.any (fun pu =>
        pu.project_id == some pid && pu.user_id == some u.id) = false →
      delete_project_endpoint db t now pid = .error ⟨403, "Not authorized"⟩) ∧
    (∀ u pr, get_current_active_user db t now = .ok u →
      db.projects.find? (fun q => q.id == pid) = some pr →
      db.project_users.any (fun pu =>
        pu.project_id == some pid && pu.user_id == some u.id) = true →
      ∃ db2, delete_project_endpoint db t now pid
        = .ok (db2, "Project deleted successfully")) ∧
    (credentials_exception.status ≠ 404 ∧ credentials_exception.status ≠ 403 ∧
      (404 : Nat) ≠ 403) := by
  refine ⟨?_, ?_, ?_, ?_, by simp [credentials_exception]⟩
  · intro e h1
    simp only [delete_project_endpoint, get_current_active_user, get_current_user, h1]
  · intro u h1 h2
    simp only [delete_project_endpoint, h1, delete_project, h2]
  · intro u pr h1 h2 h3
    simp only [delete_project_endpoint, h1, delete_project, h2, h3, Bool.not_false, if_pos]
  · intro u pr h1 h2 h3
    refine ⟨{ db with
        projects := db.projects.filter (fun q => !(q.id == pid)),
        project_users := db.project_users.map (fun pu =>
          if pu.project_id == some pid then { pu with project_id := none } else pu),
        documents := db.documents.map (fun d =>
          if d.project_id == some pid then { d with project_id := none } else d) }, ?_⟩
    simp only [delete_project_endpoint, h1, delete_project, h2, h3, Bool.not_true,
      Bool.false_eq_true, if_neg, not_false_eq_true]

/-- Delete fixture: the invite fixture plus a document on project 1 and a
second project nobody belongs to. -/
def dbDelete : DB :=
  ⟨[⟨1, "O", "o@x", "h", "user", true⟩, ⟨2, "M", "m@x", "h", "user", true⟩,
    ⟨3, "N", "n@x", "h", "user", true⟩],
   [⟨1, "P", none, none⟩, ⟨2, "Q", none, none⟩],
   [⟨1, some 1, some 1, true⟩, ⟨2, some 2, some 1, false⟩],
   [⟨1, some 1, "u1"⟩], 4, 3, 3, 2⟩

/-- A valid token for the owner user of the fixtures. -/
def tokOwner : Token := ⟨some "o@x", 100, SECRET_KEY⟩

/-- A valid token for the unaffiliated user of the fixtures. -/
def tokOutside : Token := ⟨some "n@x", 100, SECRET_KEY⟩

/-- Witness for C4: on the fixture, a bad token is 401, a missing project
is 404, a non-member caller is 403, and a member caller succeeds. -/
theorem delete_project_statuses_witness :
    delete_project_endpoint dbDelete tokBad 50 1 = .error credentials_exception ∧
    delete_project_endpoint dbDelete tokOwner 50 9 = .error ⟨404, "Project not found"⟩ ∧
    delete_project_endpoint dbDelete tokOutside 50 1 = .error ⟨403, "Not authorized"⟩ ∧
    (∃ db2, delete_project_endpoint dbDelete tokOwner 50 1
      = .ok (db2, "Project deleted successfully")) := by
  refine ⟨?_, ?_, ?_, ?_⟩
  · exact (delete_project_statuses dbDelete tokBad 50 1).1 .invalidSignature rfl
  · exact (delete_project_statuses dbDelete tokOwner 50 9).2.1 ownerUser rfl rfl
  · exact (delete_project_statuses dbDelete tokOutside 50 1).2.2.1 outsideUser ⟨1, "P", none, none⟩
      rfl rfl rfl
  · exact (delete_project_statuses dbDelete tokOwner 50 1).2.2.2.1 ownerUser ⟨1, "P", none, none⟩
      rfl rfl rfl

/-- Nullifying the matching membership foreign keys leaves no row
referencing the project. -/
theorem nullify_project_users (l : List ProjectUserRow) (pid : Nat) :
    ∀ pu ∈ l.map (fun x =>
        if x.project_id == some pid then { x with project_id := none } else x),
      pu.project_id ≠ some pid := by
  intro pu hmem
  rw [List.mem_map] at hmem
  obtain ⟨x, _, rfl⟩ := hmem
  by_cases hxp : x.project_id = some pid
  · simp [hxp]
  · simp [hxp]

/-- Nullifying the matching document foreign keys leaves no row
referencing the project. -/
theorem nullify_documents (l : List DocumentRow) (pid : Nat) :
    ∀ d ∈ l.map (fun x =>
        if x.project_id == some pid then { x with project_id := none } else x),
      d.project_id ≠ some pid := by
  intro d hmem
  rw [List.mem_map] at hmem
  obtain ⟨x, _, rfl⟩ := hmem
  by_cases hxp : x.project_id = some pid
  · simp [hxp]
  · simp [hxp]

/-- C5: after a successful delete of a project, no membership row and no
document row references it, the project row itself is gone (the store
lookup is absent), and the document-listing endpoint for it raises 404. -/
theorem delete_project_cascade (db : DB) (u : UserRow) (pid : Nat) (db2 : DB) (msg : String)
    (h : delete_project db u pid = .ok (db2, msg)) :
    (∀ pu ∈ db2.project_users, pu.project_id ≠ some pid) ∧
    (∀ d ∈ db2.documents, d.project_id ≠ some pid) ∧
    db2.projects.find? (fun q => q.id == pid) = none ∧
    get_project_documents db2 pid = .error ⟨404, "Project not found"⟩ := by
  unfold delete_project at h
  cases hf : db.projects.find? (fun q => q.id == pid) with
  | none => rw [hf] at h; exact absurd h (by simp)
  | some pr =>
    rw [hf] at h
    cases ha : db.project_users.any (fun pu =>
        pu.project_id == some pid && pu.user_id == some u.id) with
    | false => rw [ha] at h; exact absurd h (by simp)
    | true =>
      rw [ha] at h
      simp only [Bool.not_true, Bool.false_eq_true, if_neg, not_false_eq_true,
        Except.ok.injEq, Prod.mk.injEq] at h
      obtain ⟨hdb, -⟩ := h
      subst hdb
      refine ⟨nullify_project_users db.project_users pid,
        nullify_documents db.documents pid, ?_, ?_⟩
      · exact find?_filter_not db.projects (fun q => q.id == pid)
      · simp [get_project_documents, find?_filter_not db.projects (fun q => q.id == pid)]

/-- The fixture state after the owner deletes project 1: the project row
is gone and the membership and document rows are detached. -/
def dbDeleteAfter : DB :=
  ⟨[⟨1, "O", "o@x", "h", "user", true⟩, ⟨2, "M", "m@x", "h", "user", true⟩,
    ⟨3, "N", "n@x", "h", "user", true⟩],
   [⟨2, "Q", none, none⟩],
   [⟨1, some 1, none, true⟩, ⟨2, some 2, none, false⟩],
   [⟨1, none, "u1"⟩], 4, 3, 3, 2⟩

/-- Witness for C5: the owner deletes project 1 of the fixture and the
document-listing endpoint subsequently raises 404 for it. -/
theorem delete_project_cascade_witness :
    get_project_documents dbDeleteAfter 1 = .error ⟨404, "Project not found"⟩ :=
  (delete_project_cascade dbDelete ownerUser 1 dbDeleteAfter
    "Project deleted successfully" rfl).2.2.2

/-- The state after creating project A with an empty documents list on the
empty database. -/
def dbProjA : DB := ⟨[], [⟨1, "A", none, none⟩], [], [], 1, 2, 1, 1⟩

/-- C6 (code evaluated at the failing input of the round-trip claim):
creating a project succeeds only with an empty documents list, and
updating the created project with a non-empty documents list does not
replace the documents — the handler appends the raw URL values of the
request to the ORM Document relationship, so the operation dies with an
unhandled 500 instead of returning the updated fields. -/
theorem update_project_info_docs_bug :
    create_project dbEmpty ⟨"A", none, none, []⟩ = .ok (dbProjA, 1) ∧
    update_project_info dbProjA 1 ⟨"A", none, none, ["u3"]⟩
      = .error ⟨500, "UnmappedInstanceError"⟩ ∧
    create_project dbEmpty ⟨"A", none, none, ["u1", "u2"]⟩
      = .error ⟨500, "UnmappedInstanceError"⟩ := by
  exact ⟨rfl, rfl, rfl⟩

/-- A database holding one registered user with email a@x. -/
def dbOneUser : DB :=
  ⟨[⟨1, "A", "a@x", "pbkdf2-sha256$pw", "user", true⟩], [], [], [], 2, 1, 1, 1⟩

/-- C7 counterexample: registering an email that is already stored does
not produce the claimed 400 DuplicateEmail outcome — the commit violates
the unique email constraint and the IntegrityError escapes the handler as
a 500. -/
theorem create_user_duplicate_counterexample :
    create_user dbOneUser ⟨"B", "a@x", "pw2", "user"⟩ = .error ⟨500, "IntegrityError"⟩ ∧
    (⟨500, "IntegrityError"⟩ : HErr).status ≠ 400 := by
  exact ⟨rfl, by decide⟩

/-- C7 amended: registering an already-registered email fails — as an
unhandled constraint violation surfacing with status 500, not as a
client-visible 400 — and no new user record is stored. -/
theorem create_user_duplicate_amended (db : DB) (u : UserCreate)
    (h : db.users.any (fun v => v.email == u.email) = true) :
    create_user db u = .error ⟨500, "IntegrityError"⟩ ∧
    create_user_db db u = db := by
  refine ⟨?_, ?_⟩ <;> simp [create_user, create_user_db, h]

/-- Witness for the amended C7 at a concrete duplicate registration. -/
theorem create_user_duplicate_amended_witness :
    create_user dbOneUser ⟨"C", "a@x", "pw3", "user"⟩ = .error ⟨500, "IntegrityError"⟩ ∧
    create_user_db dbOneUser ⟨"C", "a@x", "pw3", "user"⟩ = dbOneUser :=
  create_user_duplicate_amended dbOneUser ⟨"C", "a@x", "pw3", "user"⟩ rfl

/-- C8 counterexample: a successful registration answers 200 with a body
serialized through response_model UserCreate, and that body carries a
password field (holding the stored hash) — the claim that the response
contains no password field is false. -/
theorem create_user_response_password_counterexample :
    create_user_response dbEmpty ⟨"X", "a@x", "pw", "user"⟩
      = .ok [("name", "X"), ("email", "a@x"),
             ("password", "pbkdf2-sha256$pw"), ("role", "user")] ∧
    (([("name", "X"), ("email", "a@x"), ("password", "pbkdf2-sha256$pw"),
       ("role", "user")] : List (String × String)).lookup "password").isSome = true := by
  exact ⟨rfl, rfl⟩

/-- C8 amended: the stored user record holds only the one-way hash of the
submitted password — never the plaintext — while the 200 response body
does contain a password field, whose value is that stored hash. -/
theorem create_user_password_amended (db : DB) (u : UserCreate) (db2 : DB) (row : UserRow)
    (h : create_user db u = .ok (db2, row)) :
    row.password = generate_password_hash u.password ∧
    row.password ≠ u.password ∧
    (userCreateResponse row).lookup "password" = some row.password ∧
    row ∈ db2.users := by
  unfold create_user at h
  cases ha : db.users.any (fun v => v.email == u.email) with
  | true => rw [ha] at h; exact absurd h (by simp)
  | false =>
    rw [ha] at h
    simp only [if_neg, Bool.false_eq_true, not_false_eq_true,
      Except.ok.injEq, Prod.mk.injEq] at h
    obtain ⟨hdb, hrow⟩ := h
    subst hdb
    subst hrow
    refine ⟨rfl, generate_password_hash_ne u.password, ?_, ?_⟩
    · simp [userCreateResponse, List.lookup]
    · simp

/-- Witness for the amended C8 at a concrete successful registration. -/
theorem create_user_password_amended_witness :
    (⟨1, "X", "a@x", "pbkdf2-sha256$pw", "user", true⟩ : UserRow).password
      = generate_password_hash "pw" ∧
    (⟨1, "X", "a@x", "pbkdf2-sha256$pw", "user", true⟩ : UserRow).password ≠ "pw" ∧
    (userCreateResponse ⟨1, "X", "a@x", "pbkdf2-sha256$pw", "user", true⟩).lookup "password"
      = some "pbkdf2-sha256$pw" ∧
    (⟨1, "X", "a@x", "pbkdf2-sha256$pw", "user", true⟩ : UserRow)
      ∈ (⟨[⟨1, "X", "a@x", "pbkdf2-sha256$pw", "user", true⟩], [], [], [], 2, 1, 1, 1⟩ : DB).users :=
  create_user_password_amended dbEmpty ⟨"X", "a@x", "pw", "user"⟩
    ⟨[⟨1, "X", "a@x", "pbkdf2-sha256$pw", "user", true⟩], [], [], [], 2, 1, 1, 1⟩
    ⟨1, "X", "a@x", "pbkdf2-sha256$pw", "user", true⟩ rfl

/-- C9 (code evaluated at the failing input): for a project id with no
stored project, GET project and GET project info both construct the 404
HTTPException and return it instead of raising, so the framework serves a
200 response whose body is the exception object — neither read fails with
a client-visible 404. -/
theorem missing_project_reads_return_200 :
    (get_project_info dbEmpty 999).httpStatus = 200 ∧
    (get_project dbEmpty 999).httpStatus = 200 ∧
    get_project_info dbEmpty 999 = .returnedException ⟨404, "Project not found"⟩ ∧
    get_project dbEmpty 999 = .returnedException ⟨404, "Project not found"⟩ := by
  exact ⟨rfl, rfl, rfl, rfl⟩

/-- find? skips a left part in which nothing matches. -/
theorem find?_append_left_none {α : Type} (l1 l2 : List α) (p : α → Bool)
    (h : l1.find? p = none) :
    (l1 ++ l2).find? p = l2.find? p := by
  induction l1 with
  | nil => simp
  | cons a l ih =>
    cases hpa : p a with
    | true => simp [List.find?, hpa] at h
    | false =>
      simp only [List.find?, hpa, List.cons_append] at h ⊢
      exact ih h

/-- C10: project creation inserts no membership row — under the
referential-integrity invariant (every membership points at a stored
project) and the serial-key invariant (stored project ids are below the
counter), the project returned by a successful create has an empty member
set, so every subsequent delete of it and every subsequent invite on it,
by any user at all, fails with the 403 Forbidden error. -/
theorem create_project_no_membership (db : DB) (p : ProjectModel) (db2 : DB) (pid : Nat)
    (hwf1 : ∀ pu ∈ db.project_users, ∀ j, pu.project_id = some j →
      ∃ pr ∈ db.projects, pr.id = j)
    (hwf2 : ∀ pr ∈ db.projects, pr.id < db.nextProjectId)
    (h : create_project db p = .ok (db2, pid)) :
    (∀ pu ∈ db2.project_users, pu.project_id ≠ some pid) ∧
    (∀ u, delete_project db2 u pid = .error ⟨403, "Not authorized"⟩) ∧
    (∀ u em, invite_user db2 u pid em = .error ⟨403, "Not authorized"⟩) := by
  unfold create_project at h
  cases hfl : flushDocEntries (p.documents.map DocEntry.raw) with
  | error e => rw [hfl] at h; exact absurd h (by simp)
  | ok l =>
    rw [hfl] at h
    simp only [Except.ok.injEq, Prod.mk.injEq] at h
    obtain ⟨hdb, hpid⟩ := h
    subst hdb
    subst hpid
    have hmem : ∀ pu ∈ db.project_users, pu.project_id ≠ some db.nextProjectId := by
      intro pu hpu hcontra
      obtain ⟨pr, hpr, hid⟩ := hwf1 pu hpu db.nextProjectId hcontra
      exact absurd hid (Nat.ne_of_lt (hwf2 pr hpr))
    have hnone : db.projects.find? (fun q => q.id == db.nextProjectId) = none := by
      rw [List.find?_eq_none]
      intro x hx
      simp only [beq_iff_eq]
      exact Nat.ne_of_lt (hwf2 x hx)
    have hfind : (db.projects ++
          [(⟨db.nextProjectId, p.name, p.logo, p.details⟩ : ProjectRow)]).find?
        (fun q => q.id == db.nextProjectId)
        = some (⟨db.nextProjectId, p.name, p.logo, p.details⟩ : ProjectRow) := by
      rw [find?_append_left_none db.projects _ _ hnone]
      simp [List.find?]
    refine ⟨hmem, ?_, ?_⟩
    · intro u
      have hany : db.project_users.any (fun pu =>
          pu.project_id == some db.nextProjectId && pu.user_id == some u.id) = false := by
        rw [List.any_eq_false]
        intro pu hpu
        simp only [Bool.and_eq_true, beq_iff_eq, not_and]
        intro hp
        exact absurd hp (hmem pu hpu)
      simp only [delete_project, hfind, hany, Bool.not_false, if_pos]
    · intro u em
      have hofind : db.project_users.find? (fun pu =>
          pu.project_id == some db.nextProjectId && pu.user_id == some u.id && pu.is_owner)
          = none := by
        rw [List.find?_eq_none]
        intro pu hpu
        simp only [Bool.and_eq_true, beq_iff_eq, not_and]
        intro hp
        exact absurd hp.1 (hmem pu hpu)
      simp only [invite_user, hofind]

/-- Witness for C10: project 1 just created on the empty database has no
members, so both delete and invite on it fail 403 for an arbitrary user. -/
theorem create_project_no_membership_witness :
    delete_project dbProjA outsideUser 1 = .error ⟨403, "Not authorized"⟩ ∧
    invite_user dbProjA outsideUser 1 "a@x" = .error ⟨403, "Not authorized"⟩ := by
  have h := create_project_no_membership dbEmpty ⟨"A", none, none, []⟩ dbProjA 1
    (by intro pu hpu; simp [dbEmpty] at hpu)
    (by intro pr hpr; simp [dbEmpty] at hpr) rfl
  exact ⟨h.2.1 outsideUser, h.2.2 outsideUser "a@x"⟩
